import Mathlib

/-!
Shallow embedding of `isaacgymenvs/tasks/factory/xarm_task.py` (class `XarmTask`).

Modelling conventions:
* Float tensors holding backend-provided physical state (DOF positions, root
  poses, wrist pose) are idealized as exact rationals (every finite float is a
  rational; arithmetic is exact).
* The control-target pathway (`_apply_actions_as_ctrl_targets` and the servo
  loop of `_randomize_gripper_pose`) can produce IEEE NaN/Inf through the
  unguarded division `axis = rot_actions / angle`.  Values on that pathway are
  modelled as `Option ℝ`, where `none` stands for a non-finite float
  (NaN or Inf) and `some x` for the finite float of exact value `x`.
  All arithmetic on that carrier propagates `none`, and division by zero
  produces `none`, mirroring IEEE semantics for the cases exercised here.
* Episode counters (`progress_buf`, `reset_buf`) are integers, as in the
  source (torch long tensors).
* The physics backend (`gym.simulate`, `set_dof_state_tensor_indexed`,
  `set_actor_root_state_tensor_indexed`, `render`) and the drive-signal
  generation (`generate_ctrl_signals`, defined outside this repository) are
  external collaborators per the specification; their effect on the modelled
  task-owned state is the identity.
-/

namespace Xarm

open Classical

/-- 3-vector of exact float values. -/
abbrev Vec3 := Fin 3 → ℚ

/-- Quaternion with exact components, layout `(x, y, z, w)` as in the source. -/
abbrev QuatQ := Fin 4 → ℚ

/-- NaN-aware float value: `none` is NaN/Inf, `some x` a finite float of exact
value `x`. -/
abbrev F := Option ℝ

/-- Quaternion on the NaN-aware carrier, layout `(x, y, z, w)`. -/
abbrev QuatF := Fin 4 → F

/-- Addition on NaN-aware floats: `none` propagates. -/
def fadd : F → F → F
  | some x, some y => some (x + y)
  | _, _ => none

/-- Subtraction on NaN-aware floats: `none` propagates. -/
def fsub : F → F → F
  | some x, some y => some (x - y)
  | _, _ => none

/-- Multiplication on NaN-aware floats: `none` propagates (note `0 * NaN = NaN`
in IEEE arithmetic, matching `none` absorption). -/
def fmul : F → F → F
  | some x, some y => some (x * y)
  | _, _ => none

/-- Division on NaN-aware floats: division by zero yields `none` (IEEE gives
NaN for `0/0` and Inf otherwise; both are non-finite). -/
noncomputable def fdiv : F → F → F
  | some x, some y => if y = 0 then none else some (x / y)
  | _, _ => none

/-- Square root on NaN-aware floats: negative argument yields NaN. -/
noncomputable def fsqrt : F → F
  | some x => if x < 0 then none else some (Real.sqrt x)
  | none => none

/-- Sine on NaN-aware floats. -/
noncomputable def fsin : F → F := Option.map Real.sin

/-- Cosine on NaN-aware floats. -/
noncomputable def fcos : F → F := Option.map Real.cos

/-- Arc cosine on NaN-aware floats. -/
noncomputable def facos : F → F := Option.map Real.arccos

/-- IEEE comparison `a > t`: false whenever `a` is NaN. -/
def fgt (a : F) (t : ℚ) : Prop := ∃ x, a = some x ∧ (t : ℝ) < x

/-- Euclidean norm of a NaN-aware 3-vector (`torch.norm(·, p=2, dim=-1)`). -/
noncomputable def fnorm3 (v : Fin 3 → F) : F :=
  fsqrt (fadd (fadd (fmul (v 0) (v 0)) (fmul (v 1) (v 1))) (fmul (v 2) (v 2)))

/-- Euclidean norm of a NaN-aware 4-vector. -/
noncomputable def fnorm4 (q : QuatF) : F :=
  fsqrt (fadd (fadd (fadd (fmul (q 0) (q 0)) (fmul (q 1) (q 1)))
    (fmul (q 2) (q 2))) (fmul (q 3) (q 3)))

/-- Identity quaternion `[0, 0, 0, 1]` on the NaN-aware carrier. -/
def identQuatF : QuatF := fun c => if c = 3 then some 1 else some 0

/-- Modelled from the spec: quaternion normalization (`quat_unit` in the
utility library outside this repository; spec 4.1 states all quaternion
constructors are "unit-normalized on output"). -/
noncomputable def quatUnit (q : QuatF) : QuatF :=
  fun c => fdiv (q c) (fnorm4 q)

/-- Modelled from the spec: `quat_from_angle_axis` (utility library outside
this repository; spec 4.1: standard axis-angle to quaternion conversion,
unit-normalized on output, with no guard for a degenerate axis). -/
noncomputable def quatFromAngleAxis (angle : F) (axis : Fin 3 → F) : QuatF :=
  let theta := fdiv angle (some 2)
  let s := fsin theta
  let n := fnorm3 axis
  let xyz : Fin 3 → F := fun j => fmul (fdiv (axis j) n) s
  let w := fcos theta
  quatUnit (fun c => if h : c.val < 3 then xyz ⟨c.val, h⟩ else w)

/-- Modelled from the spec: quaternion product `quat_mul` (utility library
outside this repository; spec 4.1: standard Hamilton product in `(x,y,z,w)`
layout). -/
noncomputable def fquatMul (a b : QuatF) : QuatF :=
  let x1 := a 0; let y1 := a 1; let z1 := a 2; let w1 := a 3
  let x2 := b 0; let y2 := b 1; let z2 := b 2; let w2 := b 3
  fun c =>
    if c = 0 then
      fadd (fsub (fadd (fmul w1 x2) (fmul x1 w2)) (fmul z1 y2)) (fmul y1 z2)
    else if c = 1 then
      fadd (fsub (fadd (fmul w1 y2) (fmul y1 w2)) (fmul x1 z2)) (fmul z1 x2)
    else if c = 2 then
      fadd (fsub (fadd (fmul w1 z2) (fmul z1 w2)) (fmul y1 x2)) (fmul x1 y2)
    else
      fsub (fsub (fsub (fmul w1 w2) (fmul x1 x2)) (fmul y1 y2)) (fmul z1 z2)

/-- Modelled from the spec: `quat_from_euler_xyz` (utility library outside
this repository; spec 4.1: `quat_from_euler(roll,pitch,yaw) -> quat`, standard
conversion, unit quaternion output).  Total on finite inputs. -/
noncomputable def quatFromEulerXYZ (e : Vec3) : QuatF :=
  let cr := Real.cos ((e 0 : ℝ) / 2); let sr := Real.sin ((e 0 : ℝ) / 2)
  let cp := Real.cos ((e 1 : ℝ) / 2); let sp := Real.sin ((e 1 : ℝ) / 2)
  let cy := Real.cos ((e 2 : ℝ) / 2); let sy := Real.sin ((e 2 : ℝ) / 2)
  fun c =>
    if c = 0 then some (sr * cp * cy - cr * sp * sy)
    else if c = 1 then some (cr * sp * cy + sr * cp * sy)
    else if c = 2 then some (cr * cp * sy - sr * sp * cy)
    else some (cr * cp * cy + sr * sp * sy)

/-- Quaternion conjugate on exact components. -/
def quatConjQ (q : QuatQ) : QuatQ :=
  fun c => if c = 3 then q 3 else -(q c)

/-- Modelled from the spec: rotational part of `get_pose_error`
(`xarm_control`, outside this repository; spec 4.1: "rotational error is the
minimal axis-angle rotation taking current orientation to target
orientation").  Computed as the axis-angle form of
`quat_mul(target, conj(current))`. -/
noncomputable def axisAngleError (cur : QuatQ) (target : QuatF) : Fin 3 → F :=
  let eq := fquatMul target (fun c => some ((quatConjQ cur c : ℚ) : ℝ))
  let xyz : Fin 3 → F := fun j => eq ⟨j.val, by omega⟩
  let n := fnorm3 xyz
  let angle := fmul (some 2) (facos (eq 3))
  fun j => fmul (fdiv (xyz j) n) angle

/-- Rigid-body actors present in each environment (`franka_actor_ids_sim`,
`nut_actor_id_env`, `bolt_actor_id_env` are distinct actor indices). -/
inductive Actor
  | franka
  | nut
  | bolt
deriving DecidableEq

/-- Task configuration: the recognized options of spec section 6, plus the
per-environment asset dimensions (`bolt_head_heights`, `nut_heights`) computed
by the environment superclass. -/
structure TaskCfg (N : ℕ) where
  maxEpisodeLength : ℤ
  numKeypoints : ℕ
  keypointScale : ℚ
  keypointRewardScale : ℚ
  actionPenaltyScale : ℚ
  successBonus : ℚ
  posActionScale : Fin 3 → ℚ
  rotActionScale : Fin 3 → ℚ
  forceActionScale : Fin 3 → ℚ
  torqueActionScale : Fin 3 → ℚ
  clampRot : Bool
  clampRotThresh : ℚ
  doForceCtrl : Bool
  numActions : ℕ
  numHandDofs : ℕ
  closeAndLift : Bool
  numGripperMoveSimSteps : ℕ
  numGripperLiftSimSteps : ℕ
  tableHeight : ℚ
  armNumDofs : ℕ
  frankaArmInitialDofPos : ℕ → ℚ
  handInitialDofPos : ℕ → ℚ
  nutPosXyInitial : Fin 2 → ℚ
  nutPosXyInitialNoise : Fin 2 → ℚ
  boltPosXyInitial : Fin 2 → ℚ
  boltPosXyNoise : Fin 2 → ℚ
  fingertipMidpointPosInitial : Vec3
  fingertipMidpointPosNoise : Vec3
  fingertipMidpointRotInitial : Vec3
  fingertipMidpointRotNoise : Vec3
  boltHeadHeights : Fin N → ℚ
  nutHeights : Fin N → ℚ

/-- The task-owned mutable environment state (spec section 3 `EnvState`):
joint state, control targets, actor root states, wrist views, episode
counters. -/
structure EnvState (N : ℕ) where
  dofPos : Fin N → ℕ → ℚ
  dofVel : Fin N → ℕ → ℚ
  ctrlTargetDofPos : Fin N → ℕ → ℚ
  ctrlTargetWristPos : Fin N → Fin 3 → F
  ctrlTargetWristQuat : Fin N → QuatF
  ctrlTargetGripperDofPos : Fin N → ℕ → F
  ctrlTargetWrench : Fin N → ℕ → F
  rootPos : Fin N → Actor → Vec3
  rootQuat : Fin N → Actor → QuatQ
  rootLinvel : Fin N → Actor → Vec3
  rootAngvel : Fin N → Actor → Vec3
  wristPos : Fin N → Vec3
  wristQuat : Fin N → QuatQ
  wristLinvel : Fin N → Vec3
  wristAngvel : Fin N → Vec3
  progressBuf : Fin N → ℤ
  resetBuf : Fin N → ℤ

/-- Noise draws consumed by one invocation of `reset_idx`: the raw outputs of
the `torch.rand` calls, each in `[0, 1]`. -/
structure ResetNoise (N : ℕ) where
  nutRand : Fin N → Fin 2 → ℚ
  boltRand : Fin N → Fin 2 → ℚ
  posRand : Fin N → Fin 3 → ℚ
  rotRand : Fin N → Fin 3 → ℚ

/-- `torch.linspace(a, b, steps)` evaluated at index `i`: for `steps = 1` the
single sample equals `a`; otherwise samples are evenly spaced from `a` to
`b` inclusive. -/
def linspace (a b : ℚ) (steps : ℕ) (i : ℕ) : ℚ :=
  if steps ≤ 1 then a else a + i * (b - a) / ((steps : ℚ) - 1)

/-- `_get_keypoint_offsets`: a `(num_keypoints, 3)` tensor of zeros whose last
column is `linspace(0, 1, num_keypoints) - 0.5`. -/
def getKeypointOffsets (numKeypoints : ℕ) (k : ℕ) (c : Fin 3) : ℚ :=
  if c = 2 then linspace 0 1 numKeypoints k - 1/2 else 0

/-- Modelled from the spec: rotation of a vector by a quaternion, the
positional half of `tf_combine`/`compose` (utility library outside this
repository; spec 4.1: rigid transform composition). -/
def quatApply (q : QuatQ) (v : Vec3) : Vec3 :=
  let x := q 0; let y := q 1; let z := q 2; let w := q 3
  let cx := y * v 2 - z * v 1
  let cy := z * v 0 - x * v 2
  let cz := x * v 1 - y * v 0
  fun c =>
    if c = 0 then v 0 + 2 * (w * cx + (y * cz - z * cy))
    else if c = 1 then v 1 + 2 * (w * cy + (z * cx - x * cz))
    else v 2 + 2 * (w * cz + (x * cy - y * cx))

/-- Quaternion product on exact components, `(x,y,z,w)` layout. -/
def quatMulQ (a b : QuatQ) : QuatQ :=
  let x1 := a 0; let y1 := a 1; let z1 := a 2; let w1 := a 3
  let x2 := b 0; let y2 := b 1; let z2 := b 2; let w2 := b 3
  fun c =>
    if c = 0 then w1 * x2 + x1 * w2 - z1 * y2 + y1 * z2
    else if c = 1 then w1 * y2 + y1 * w2 - x1 * z2 + z1 * x2
    else if c = 2 then w1 * z2 + z1 * w2 - y1 * x2 + x1 * y2
    else w1 * w2 - x1 * x2 - y1 * y2 - z1 * z2

/-- Modelled from the spec: `tf_combine(q1, p1, q2, p2) = (q1 * q2,
rotate(q1, p2) + p1)` (utility library outside this repository; spec 4.1:
`compose` is rigid transform composition, apply transform B in frame A). -/
def tfCombine (q1 : QuatQ) (p1 : Vec3) (q2 : QuatQ) (p2 : Vec3) :
    QuatQ × Vec3 :=
  (quatMulQ q1 q2, fun c => quatApply q1 p2 c + p1 c)

/-- Derived per-step task tensors recomputed by `_refresh_task_tensors`:
the nut grasp frame and the world-frame keypoint positions. -/
structure TaskTensors (N : ℕ) where
  nutGraspQuat : Fin N → QuatQ
  nutGraspPos : Fin N → Vec3
  keypointsGripper : Fin N → ℕ → Vec3
  keypointsNut : Fin N → ℕ → Vec3

/-- The fixed local grasp orientation `[0, 1, 0, 0]` of
`_acquire_task_tensors`. -/
def nutGraspQuatLocal : QuatQ := fun c => if c = 1 then 1 else 0

/-- `_refresh_task_tensors`: grasp frame from the nut root pose and the fixed
local offset (`nut_grasp_heights = bolt_head_heights + nut_heights * 0.5`),
then keypoints of gripper and nut by rigidly transforming the scaled keypoint
offsets. -/
def refreshTaskTensors {N : ℕ} (cfg : TaskCfg N) (st : EnvState N) :
    TaskTensors N :=
  let graspPosLocal : Fin N → Vec3 := fun i c =>
    if c = 2 then cfg.boltHeadHeights i + cfg.nutHeights i * (1/2) else 0
  let grasp : Fin N → QuatQ × Vec3 := fun i =>
    tfCombine (st.rootQuat i .nut) (st.rootPos i .nut)
      nutGraspQuatLocal (graspPosLocal i)
  let offset : ℕ → Vec3 := fun k c =>
    getKeypointOffsets cfg.numKeypoints k c * cfg.keypointScale
  { nutGraspQuat := fun i => (grasp i).1
    nutGraspPos := fun i => (grasp i).2
    keypointsGripper := fun i k =>
      (tfCombine (st.wristQuat i) (st.wristPos i)
        (fun c => if c = 3 then 1 else 0) (offset k)).2
    keypointsNut := fun i k =>
      (tfCombine (grasp i).1 (grasp i).2
        (fun c => if c = 3 then 1 else 0) (offset k)).2 }

/-- `_get_keypoint_dist`: sum over keypoints of the Euclidean distance
between nut and gripper keypoints. -/
noncomputable def keypointDist {N : ℕ} (numKeypoints : ℕ)
    (keypointsNut keypointsGripper : Fin N → ℕ → Vec3) (i : Fin N) : ℝ :=
  ∑ k ∈ Finset.range numKeypoints,
    Real.sqrt (∑ c : Fin 3,
      ((keypointsNut i k c - keypointsGripper i k c : ℚ) : ℝ) ^ 2)

/-- `torch.norm(actions, p=2, dim=-1)`: Euclidean norm of the width-wide
action row. -/
noncomputable def actionNorm {N : ℕ} (width : ℕ) (a : Fin N → ℕ → ℚ)
    (i : Fin N) : ℝ :=
  Real.sqrt (∑ j ∈ Finset.range width, ((a i j : ℚ) : ℝ) ^ 2)

/-- `_check_lift_success`: 1.0 where the nut z-position strictly exceeds
`table_height + nut_heights * height_multiple`, else 0.0. -/
def checkLiftSuccess {N : ℕ} (cfg : TaskCfg N) (st : EnvState N)
    (heightMultiple : ℚ) (i : Fin N) : ℚ :=
  if st.rootPos i .nut 2 >
      cfg.tableHeight + cfg.nutHeights i * heightMultiple then 1 else 0

/-- `_update_reset_buf`: flag an environment for reset once its progress
counter reaches `max_episode_length - 1`; otherwise keep the flag. -/
def updateResetBuf {N : ℕ} (cfg : TaskCfg N) (st : EnvState N) : EnvState N :=
  { st with
    resetBuf := fun i =>
      if st.progressBuf i ≥ cfg.maxEpisodeLength - 1 then 1
      else st.resetBuf i }

/-- `_update_rew_buf`: keypoint shaping reward minus the action penalty, with
the success bonus and the `extras['successes']` metric on the terminal step
(determined by environment 0's progress counter).  Returns the reward vector
and the optional success-rate metric. -/
noncomputable def updateRewBuf {N : ℕ} [NeZero N] (cfg : TaskCfg N)
    (st : EnvState N) (keypointsNut keypointsGripper : Fin N → ℕ → Vec3)
    (actions : Fin N → ℕ → ℚ) : (Fin N → ℝ) × Option ℝ :=
  let keypointReward : Fin N → ℝ := fun i =>
    -(keypointDist cfg.numKeypoints keypointsNut keypointsGripper i)
  let actionPenalty : Fin N → ℝ := fun i =>
    actionNorm cfg.numActions actions i * (cfg.actionPenaltyScale : ℝ)
  let rew : Fin N → ℝ := fun i =>
    keypointReward i * (cfg.keypointRewardScale : ℝ) -
      actionPenalty i * (cfg.actionPenaltyScale : ℝ)
  if st.progressBuf 0 = cfg.maxEpisodeLength - 1 then
    let lift := checkLiftSuccess cfg st 3
    (fun i => rew i + (lift i : ℝ) * (cfg.successBonus : ℝ),
      some ((∑ i, (lift i : ℝ)) / (N : ℝ)))
  else (rew, none)

/-- `_reset_franka`: joint positions of the reset subset set to the
configured initial pose (concatenation of arm and hand initial DOF
positions), joint velocities zeroed, DOF control target snapped to the new
joint positions.  The trailing `set_dof_state_tensor_indexed` call is a
backend write. -/
def resetFranka {N : ℕ} (cfg : TaskCfg N) (st : EnvState N)
    (envIds : Finset (Fin N)) : EnvState N :=
  let row : ℕ → ℚ := fun j =>
    if j < cfg.armNumDofs then cfg.frankaArmInitialDofPos j
    else cfg.handInitialDofPos (j - cfg.armNumDofs)
  { st with
    dofPos := fun i => if i ∈ envIds then row else st.dofPos i
    dofVel := fun i j => if i ∈ envIds then 0 else st.dofVel i j
    ctrlTargetDofPos := fun i =>
      if i ∈ envIds then row else st.ctrlTargetDofPos i }

/-- `_reset_object`: root states of nut and bolt for the reset subset.  The
nut x/y are the configured nominal positions plus `2 * (rand - 0.5)` noise
scaled per axis; the nut z is `table_height - bolt_head_heights`; the bolt is
analogous with z at `table_height`; both orientations are reset to
`[0, 0, 0, 1]` and both velocities to zero.  The trailing
`set_actor_root_state_tensor_indexed` call is a backend write. -/
def resetObject {N : ℕ} (cfg : TaskCfg N) (st : EnvState N)
    (envIds : Finset (Fin N)) (nutRand boltRand : Fin N → Fin 2 → ℚ) :
    EnvState N :=
  let nutNoiseXy : Fin N → Fin 2 → ℚ := fun i j =>
    2 * (nutRand i j - 1/2) * cfg.nutPosXyInitialNoise j
  let boltNoiseXy : Fin N → Fin 2 → ℚ := fun i j =>
    2 * (boltRand i j - 1/2) * cfg.boltPosXyNoise j
  { st with
    rootPos := fun i a =>
      if i ∈ envIds ∧ a = .nut then fun c =>
        if c = 0 then cfg.nutPosXyInitial 0 + nutNoiseXy i 0
        else if c = 1 then cfg.nutPosXyInitial 1 + nutNoiseXy i 1
        else cfg.tableHeight - cfg.boltHeadHeights i
      else if i ∈ envIds ∧ a = .bolt then fun c =>
        if c = 0 then cfg.boltPosXyInitial 0 + boltNoiseXy i 0
        else if c = 1 then cfg.boltPosXyInitial 1 + boltNoiseXy i 1
        else cfg.tableHeight
      else st.rootPos i a
    rootQuat := fun i a =>
      if i ∈ envIds ∧ (a = .nut ∨ a = .bolt) then
        fun c => if c = 3 then 1 else 0
      else st.rootQuat i a
    rootLinvel := fun i a =>
      if i ∈ envIds ∧ (a = .nut ∨ a = .bolt) then fun _ => 0
      else st.rootLinvel i a
    rootAngvel := fun i a =>
      if i ∈ envIds ∧ (a = .nut ∨ a = .bolt) then fun _ => 0
      else st.rootAngvel i a }

/-- `_reset_buffers`: clear the reset flag and the progress counter of the
reset subset. -/
def resetBuffers {N : ℕ} (st : EnvState N) (envIds : Finset (Fin N)) :
    EnvState N :=
  { st with
    resetBuf := fun i => if i ∈ envIds then 0 else st.resetBuf i
    progressBuf := fun i => if i ∈ envIds then 0 else st.progressBuf i }

/-- Rotation-target computation of `_apply_actions_as_ctrl_targets` (lines
305-313): `angle = norm(rot_actions)`, `axis = rot_actions / angle` (no guard
for `angle = 0`), conversion to a delta quaternion, the optional `clamp_rot`
dead-zone replacing the delta with the identity when `angle` is not above the
threshold, and right-multiplication onto the current wrist orientation. -/
noncomputable def rotTargetQuat {N : ℕ} (cfg : TaskCfg N) (wristQuat : QuatQ)
    (rotActions : Fin 3 → F) : QuatF :=
  let angle := fnorm3 rotActions
  let axis : Fin 3 → F := fun j => fdiv (rotActions j) angle
  let raq := quatFromAngleAxis angle axis
  let raq : QuatF :=
    if cfg.clampRot then
      fun c => if fgt angle cfg.clampRotThresh then raq c else identQuatF c
    else raq
  fquatMul raq (fun c => some ((wristQuat c : ℚ) : ℝ))

/-- Shared core of `_apply_actions_as_ctrl_targets` after slicing and
scaling: write the position target (`wrist_pos + pos_actions`), the rotation
target, the optional force/torque target, and the gripper DOF target.  The
final `generate_ctrl_signals` call produces backend drive signals (external
controller, spec 4.2) and does not mutate the modelled state. -/
noncomputable def applyCtrlTargets {N : ℕ} (cfg : TaskCfg N) (st : EnvState N)
    (posActions rotActions : Fin N → Fin 3 → F)
    (forceActions torqueActions : Fin N → ℕ → F)
    (gripActions : Fin N → ℕ → F) : EnvState N :=
  { st with
    ctrlTargetWristPos := fun i j =>
      fadd (some ((st.wristPos i j : ℚ) : ℝ)) (posActions i j)
    ctrlTargetWristQuat := fun i =>
      rotTargetQuat cfg (st.wristQuat i) (rotActions i)
    ctrlTargetWrench := fun i j =>
      if cfg.doForceCtrl then
        if j < 3 then forceActions i j else torqueActions i (j - 3)
      else st.ctrlTargetWrench i j
    ctrlTargetGripperDofPos := gripActions }

/-- `_apply_actions_as_ctrl_targets` on a policy action tensor of the given
width: slice positions `0:3`, rotations `3:6`, forces `6:9`, torques `9:12`
and the last `num_hand_dofs` entries, scale the slices element-wise when
`do_scale` is set, and commit the control targets. -/
noncomputable def applyActionsAsCtrlTargets {N : ℕ} (cfg : TaskCfg N)
    (st : EnvState N) (width : ℕ) (actions : Fin N → ℕ → ℚ)
    (doScale : Bool) : EnvState N :=
  let posActions : Fin N → Fin 3 → F := fun i j =>
    some ((if doScale then actions i j * cfg.posActionScale j
      else actions i j : ℚ) : ℝ)
  let rotActions : Fin N → Fin 3 → F := fun i j =>
    some ((if doScale then actions i (3 + j) * cfg.rotActionScale j
      else actions i (3 + j) : ℚ) : ℝ)
  let forceActions : Fin N → ℕ → F := fun i j =>
    some ((if h : j < 3 then
      (if doScale then actions i (6 + j) * cfg.forceActionScale ⟨j, h⟩
        else actions i (6 + j)) else 0 : ℚ) : ℝ)
  let torqueActions : Fin N → ℕ → F := fun i j =>
    some ((if h : j < 3 then
      (if doScale then actions i (9 + j) * cfg.torqueActionScale ⟨j, h⟩
        else actions i (9 + j)) else 0 : ℚ) : ℝ)
  let gripActions : Fin N → ℕ → F := fun i j =>
    some ((actions i (width - cfg.numHandDofs + j) : ℚ) : ℝ)
  applyCtrlTargets cfg st posActions rotActions forceActions torqueActions
    gripActions

/-- One iteration of the closed-loop servo inside `_randomize_gripper_pose`:
refresh derived tensors, compute the pose error (`get_pose_error`, linear
part `target - current`), assemble a zero action tensor whose first six
entries are the error, and feed it through
`_apply_actions_as_ctrl_targets(..., do_scale=False)`.  The subsequent
`gym.simulate`/`render` calls advance the external backend. -/
noncomputable def servoStep {N : ℕ} (cfg : TaskCfg N) (st : EnvState N) :
    EnvState N :=
  let posError : Fin N → Fin 3 → F := fun i j =>
    fsub (st.ctrlTargetWristPos i j) (some ((st.wristPos i j : ℚ) : ℝ))
  let aaError : Fin N → Fin 3 → F := fun i =>
    axisAngleError (st.wristQuat i) (st.ctrlTargetWristQuat i)
  let aF : Fin N → ℕ → F := fun i j =>
    if h : j < 3 then posError i ⟨j, h⟩
    else if h6 : j < 6 then aaError i ⟨j - 3, by omega⟩
    else some 0
  applyCtrlTargets cfg st
    (fun i j => aF i j)
    (fun i j => aF i (3 + j))
    (fun i j => if j < 3 then aF i (6 + j) else some 0)
    (fun i j => if j < 3 then aF i (9 + j) else some 0)
    (fun i j => aF i (cfg.numActions - cfg.numHandDofs + j))

/-- `_randomize_gripper_pose`: set a randomized wrist pose target for the
whole batch (nominal pose above the table plus per-axis uniform noise on
position and Euler orientation), run `sim_steps` servo iterations through the
normal control path, then zero the DOF velocities of the reset subset.  The
trailing `set_dof_state_tensor_indexed` call is a backend write. -/
noncomputable def randomizeGripperPose {N : ℕ} (cfg : TaskCfg N)
    (st : EnvState N) (envIds : Finset (Fin N))
    (posRand rotRand : Fin N → Fin 3 → ℚ) (simSteps : ℕ) : EnvState N :=
  let tableVec : Vec3 := fun c => if c = 2 then cfg.tableHeight else 0
  let st1 := { st with
    ctrlTargetWristPos := fun i j =>
      some ((tableVec j + cfg.fingertipMidpointPosInitial j +
        2 * (posRand i j - 1/2) * cfg.fingertipMidpointPosNoise j : ℚ) : ℝ) }
  let euler : Fin N → Vec3 := fun i j =>
    cfg.fingertipMidpointRotInitial j +
      2 * (rotRand i j - 1/2) * cfg.fingertipMidpointRotNoise j
  let st2 := { st1 with
    ctrlTargetWristQuat := fun i => quatFromEulerXYZ (euler i) }
  let st3 := (servoStep cfg)^[simSteps] st2
  { st3 with
    dofVel := fun i j => if i ∈ envIds then 0 else st3.dofVel i j }

/-- `reset_idx`: reset the robot joint state, the object root states, run the
gripper-pose randomization servo, then clear the episode buffers of the
reset subset. -/
noncomputable def resetIdx {N : ℕ} (cfg : TaskCfg N) (st : EnvState N)
    (envIds : Finset (Fin N)) (noise : ResetNoise N) : EnvState N :=
  let st1 := resetFranka cfg st envIds
  let st2 := resetObject cfg st1 envIds noise.nutRand noise.boltRand
  let st3 := randomizeGripperPose cfg st2 envIds noise.posRand noise.rotRand
    cfg.numGripperMoveSimSteps
  resetBuffers st3 envIds

/-- `pre_physics_step`: reset every environment whose reset flag is nonzero
(when there is at least one), store the policy actions, and apply them as
scaled control targets. -/
noncomputable def prePhysicsStep {N : ℕ} (cfg : TaskCfg N)
    (noise : ResetNoise N) (actions : Fin N → ℕ → ℚ) (st : EnvState N) :
    EnvState N :=
  let envIds := Finset.univ.filter (fun i => st.resetBuf i ≠ 0)
  let st1 := if envIds.Nonempty then resetIdx cfg st envIds noise else st
  applyActionsAsCtrlTargets cfg st1 cfg.numActions actions true

/-- `_lift_gripper` (default `lift_distance = 0.3`): repeatedly apply a
six-wide delta pose whose z-entry is the lift distance through
`_apply_actions_as_ctrl_targets(..., do_scale=False)`, advancing the external
backend in between. -/
noncomputable def liftGripper {N : ℕ} (cfg : TaskCfg N) (st : EnvState N) :
    EnvState N :=
  let delta : Fin N → ℕ → ℚ := fun _ j => if j = 2 then 3/10 else 0
  (fun s => applyActionsAsCtrlTargets cfg s 6 delta false)^[
    cfg.numGripperLiftSimSteps] st

/-- `compute_observations`: concatenation of wrist position, wrist
orientation, wrist linear and angular velocity, and the nut grasp pose. -/
def computeObservations {N : ℕ} (st : EnvState N) (tt : TaskTensors N)
    (i : Fin N) (j : ℕ) : ℚ :=
  if h : j < 3 then st.wristPos i ⟨j, h⟩
  else if h : j < 7 then st.wristQuat i ⟨j - 3, by omega⟩
  else if h : j < 10 then st.wristLinvel i ⟨j - 7, by omega⟩
  else if h : j < 13 then st.wristAngvel i ⟨j - 10, by omega⟩
  else if h : j < 16 then tt.nutGraspPos i ⟨j - 13, by omega⟩
  else if h : j < 20 then tt.nutGraspQuat i ⟨j - 16, by omega⟩
  else 0

/-- Result of `post_physics_step`: the updated state, the observation buffer,
the reward buffer, the optional `extras['successes']` metric, and whether the
end-of-episode lift sub-loop ran. -/
structure StepOut (N : ℕ) where
  state : EnvState N
  obs : Fin N → ℕ → ℚ
  rew : Fin N → ℝ
  successes : Option ℝ
  didLift : Bool

/-- `post_physics_step`: advance the progress counters, run the open-loop
lift on the terminal step (determined from environment 0) when
`close_and_lift` is enabled, refresh derived tensors, compute observations,
and update the reset and reward buffers. -/
noncomputable def postPhysicsStep {N : ℕ} [NeZero N] (cfg : TaskCfg N)
    (actions : Fin N → ℕ → ℚ) (st : EnvState N) : StepOut N :=
  let st1 := { st with progressBuf := fun i => st.progressBuf i + 1 }
  let isLast : Bool := st1.progressBuf 0 = cfg.maxEpisodeLength - 1
  let didLift := cfg.closeAndLift && isLast
  let st2 := if didLift then liftGripper cfg st1 else st1
  let tt := refreshTaskTensors cfg st2
  let st3 := updateResetBuf cfg st2
  let rs := updateRewBuf cfg st3 tt.keypointsNut tt.keypointsGripper actions
  { state := st3
    obs := computeObservations st2 tt
    rew := rs.1
    successes := rs.2
    didLift := didLift }

/-- One full per-step pipeline invocation: `pre_physics_step`, the external
physics advance (out of scope), then `post_physics_step`. -/
noncomputable def fullStep {N : ℕ} [NeZero N] (cfg : TaskCfg N)
    (noise : ResetNoise N) (actions : Fin N → ℕ → ℚ) (st : EnvState N) :
    StepOut N :=
  postPhysicsStep cfg actions (prePhysicsStep cfg noise actions st)

/-- A baseline configuration with all scales, noise magnitudes and poses set
to zero, six actions, and every feature flag off. -/
def zeroCfg (N : ℕ) : TaskCfg N where
  maxEpisodeLength := 0
  numKeypoints := 0
  keypointScale := 0
  keypointRewardScale := 0
  actionPenaltyScale := 0
  successBonus := 0
  posActionScale := fun _ => 0
  rotActionScale := fun _ => 0
  forceActionScale := fun _ => 0
  torqueActionScale := fun _ => 0
  clampRot := false
  clampRotThresh := 0
  doForceCtrl := false
  numActions := 6
  numHandDofs := 0
  closeAndLift := false
  numGripperMoveSimSteps := 0
  numGripperLiftSimSteps := 0
  tableHeight := 0
  armNumDofs := 0
  frankaArmInitialDofPos := fun _ => 0
  handInitialDofPos := fun _ => 0
  nutPosXyInitial := fun _ => 0
  nutPosXyInitialNoise := fun _ => 0
  boltPosXyInitial := fun _ => 0
  boltPosXyNoise := fun _ => 0
  fingertipMidpointPosInitial := fun _ => 0
  fingertipMidpointPosNoise := fun _ => 0
  fingertipMidpointRotInitial := fun _ => 0
  fingertipMidpointRotNoise := fun _ => 0
  boltHeadHeights := fun _ => 0
  nutHeights := fun _ => 0

/-- A baseline environment state: everything zero, wrist orientation the
identity quaternion, freshly reset buffers. -/
def zeroState (N : ℕ) : EnvState N where
  dofPos := fun _ _ => 0
  dofVel := fun _ _ => 0
  ctrlTargetDofPos := fun _ _ => 0
  ctrlTargetWristPos := fun _ _ => some 0
  ctrlTargetWristQuat := fun _ _ => some 0
  ctrlTargetGripperDofPos := fun _ _ => some 0
  ctrlTargetWrench := fun _ _ => some 0
  rootPos := fun _ _ _ => 0
  rootQuat := fun _ _ _ => 0
  rootLinvel := fun _ _ _ => 0
  rootAngvel := fun _ _ _ => 0
  wristPos := fun _ _ => 0
  wristQuat := fun _ c => if c = 3 then 1 else 0
  wristLinvel := fun _ _ => 0
  wristAngvel := fun _ _ => 0
  progressBuf := fun _ => 0
  resetBuf := fun _ => 0

/-- Noise draws that are all one half (so every `2 * (rand - 0.5)` term
vanishes). -/
def halfNoise (N : ℕ) : ResetNoise N where
  nutRand := fun _ _ => 1/2
  boltRand := fun _ _ => 1/2
  posRand := fun _ _ => 1/2
  rotRand := fun _ _ => 1/2

/-- Two-environment configuration for the reset-isolation analysis: nonzero
table height, no servo sub-steps. -/
def cfgIso : TaskCfg 2 := { zeroCfg 2 with tableHeight := 1/2 }

/-- One-environment configuration with a nonzero bolt head height, for the
nut placement analysis (`table_height = 0.4`, `bolt_head_height = 0.02`). -/
def cfgNut : TaskCfg 1 :=
  { zeroCfg 1 with tableHeight := 2/5, boltHeadHeights := fun _ => 1/50 }

/-- Configuration of the end-to-end scenario: four environments,
`max_episode_length = 3`. -/
def cfgEp : TaskCfg 4 := { zeroCfg 4 with maxEpisodeLength := 3 }

/-- The state reached from a start state after one full pipeline step of the
end-to-end scenario (zero actions, fixed noise draws). -/
noncomputable def stepEp (st : EnvState 4) : EnvState 4 :=
  (fullStep cfgEp (halfNoise 4) (fun _ _ => 0) st).state

/-- The action `[1, 0, 0, 0, 0, 0]` of the action-penalty scenario. -/
def unitAction : Fin 1 → ℕ → ℚ := fun _ j => if j = 0 then 1 else 0

/-- Configuration of the lift-success scenario: `table_height = 0.4`,
`nut_height = 0.01`. -/
def cfgLift : TaskCfg 1 :=
  { zeroCfg 1 with tableHeight := 2/5, nutHeights := fun _ => 1/100 }

/-- State with the nut exactly at the lift-success boundary height 0.43. -/
def stBoundary : EnvState 1 :=
  { zeroState 1 with
    rootPos := fun _ a c => if a = .nut ∧ c = 2 then 43/100 else 0 }

/-- State with the nut just above the lift-success boundary, at height
0.44. -/
def stAbove : EnvState 1 :=
  { zeroState 1 with
    rootPos := fun _ a c => if a = .nut ∧ c = 2 then 44/100 else 0 }

/-- Configuration with the rotation clamp disabled, for the zero-rotation
degeneracy analysis. -/
def cfgNoClamp : TaskCfg 1 := { zeroCfg 1 with clampRot := false }

/-- Configuration with the rotation clamp enabled at threshold `1e-6`. -/
def cfgClamp : TaskCfg 1 :=
  { zeroCfg 1 with clampRot := true, clampRotThresh := 1/1000000 }

/-- Configuration with a five-step episode, for exercising the
already-flagged branch of the reset-buffer update. -/
def cfgMax5 : TaskCfg 1 := { zeroCfg 1 with maxEpisodeLength := 5 }

/-- State whose reset flag is already raised while progress is far from the
episode end. -/
def stFlagged : EnvState 1 := { zeroState 1 with resetBuf := fun _ => 1 }

/-! ### Computation lemmas for the NaN-aware float carrier -/

@[simp] theorem fadd_some_some (x y : ℝ) : fadd (some x) (some y) = some (x + y) := rfl

@[simp] theorem fadd_none_left (a : F) : fadd none a = none := by cases a <;> rfl

@[simp] theorem fadd_none_right (a : F) : fadd a none = none := by cases a <;> rfl

@[simp] theorem fsub_some_some (x y : ℝ) : fsub (some x) (some y) = some (x - y) := rfl

@[simp] theorem fsub_none_left (a : F) : fsub none a = none := by cases a <;> rfl

@[simp] theorem fsub_none_right (a : F) : fsub a none = none := by cases a <;> rfl

@[simp] theorem fmul_some_some (x y : ℝ) : fmul (some x) (some y) = some (x * y) := rfl

@[simp] theorem fmul_none_left (a : F) : fmul none a = none := by cases a <;> rfl

@[simp] theorem fmul_none_right (a : F) : fmul a none = none := by cases a <;> rfl

@[simp] theorem fdiv_some_some (x y : ℝ) :
    fdiv (some x) (some y) = if y = 0 then none else some (x / y) := rfl

@[simp] theorem fdiv_none_left (a : F) : fdiv none a = none := by cases a <;> rfl

@[simp] theorem fdiv_none_right (a : F) : fdiv a none = none := by cases a <;> rfl

@[simp] theorem fsqrt_some (x : ℝ) :
    fsqrt (some x) = if x < 0 then none else some (Real.sqrt x) := rfl

@[simp] theorem fsqrt_none : fsqrt none = none := rfl

@[simp] theorem fsin_some (x : ℝ) : fsin (some x) = some (Real.sin x) := rfl

@[simp] theorem fsin_none : fsin none = none := rfl

@[simp] theorem fcos_some (x : ℝ) : fcos (some x) = some (Real.cos x) := rfl

@[simp] theorem fcos_none : fcos none = none := rfl

@[simp] theorem facos_none : facos none = none := rfl

theorem fgt_some_iff (x : ℝ) (t : ℚ) : fgt (some x) t ↔ (t : ℝ) < x := by
  constructor
  · rintro ⟨y, hy, hlt⟩
    cases Option.some_injective _ hy
    exact hlt
  · intro h
    exact ⟨x, rfl, h⟩

@[simp] theorem fgt_none (t : ℚ) : ¬ fgt none t := by
  rintro ⟨y, hy, -⟩
  exact Option.noConfusion hy

/-! ### Preservation of task-owned state by iterated operations -/

theorem iterate_preserve {α β : Type _} (f : α → α) (g : α → β)
    (h : ∀ s, g (f s) = g s) : ∀ (n : ℕ) (s : α), g (f^[n] s) = g s := by
  intro n
  induction n with
  | zero => intro s; simp
  | succ n ih =>
    intro s
    rw [Function.iterate_succ_apply, ih (f s), h s]

section Frames

variable {N : ℕ} (cfg : TaskCfg N) (st : EnvState N)

theorem servoStep_dofPos : (servoStep cfg st).dofPos = st.dofPos := rfl

theorem servoStep_dofVel : (servoStep cfg st).dofVel = st.dofVel := rfl

theorem servoStep_ctrlTargetDofPos :
    (servoStep cfg st).ctrlTargetDofPos = st.ctrlTargetDofPos := rfl

theorem servoStep_rootPos : (servoStep cfg st).rootPos = st.rootPos := rfl

theorem servoStep_rootQuat : (servoStep cfg st).rootQuat = st.rootQuat := rfl

theorem servoStep_rootLinvel :
    (servoStep cfg st).rootLinvel = st.rootLinvel := rfl

theorem servoStep_rootAngvel :
    (servoStep cfg st).rootAngvel = st.rootAngvel := rfl

theorem servoStep_wristPos : (servoStep cfg st).wristPos = st.wristPos := rfl

theorem servoStep_wristQuat :
    (servoStep cfg st).wristQuat = st.wristQuat := rfl

theorem servoStep_wristLinvel :
    (servoStep cfg st).wristLinvel = st.wristLinvel := rfl

theorem servoStep_wristAngvel :
    (servoStep cfg st).wristAngvel = st.wristAngvel := rfl

theorem servoStep_progressBuf :
    (servoStep cfg st).progressBuf = st.progressBuf := rfl

theorem servoStep_resetBuf :
    (servoStep cfg st).resetBuf = st.resetBuf := rfl

end Frames

section RandomizeFrames

variable {N : ℕ} (cfg : TaskCfg N) (st : EnvState N) (envIds : Finset (Fin N))
variable (posRand rotRand : Fin N → Fin 3 → ℚ) (simSteps : ℕ)

theorem randomize_dofPos :
    (randomizeGripperPose cfg st envIds posRand rotRand simSteps).dofPos =
      st.dofPos :=
  iterate_preserve (servoStep cfg) EnvState.dofPos (fun _ => rfl) simSteps _

theorem randomize_dofVel :
    (randomizeGripperPose cfg st envIds posRand rotRand simSteps).dofVel =
      fun i j => if i ∈ envIds then 0 else st.dofVel i j := by
  have h := iterate_preserve (servoStep cfg) EnvState.dofVel (fun _ => rfl)
    simSteps
  unfold randomizeGripperPose
  funext i j
  by_cases hi : i ∈ envIds <;> simp [hi, h]

theorem randomize_ctrlTargetDofPos :
    (randomizeGripperPose cfg st envIds posRand rotRand
      simSteps).ctrlTargetDofPos = st.ctrlTargetDofPos :=
  iterate_preserve (servoStep cfg) EnvState.ctrlTargetDofPos (fun _ => rfl)
    simSteps _

theorem randomize_rootPos :
    (randomizeGripperPose cfg st envIds posRand rotRand simSteps).rootPos =
      st.rootPos :=
  iterate_preserve (servoStep cfg) EnvState.rootPos (fun _ => rfl) simSteps _

theorem randomize_rootQuat :
    (randomizeGripperPose cfg st envIds posRand rotRand simSteps).rootQuat =
      st.rootQuat :=
  iterate_preserve (servoStep cfg) EnvState.rootQuat (fun _ => rfl) simSteps _

theorem randomize_rootLinvel :
    (randomizeGripperPose cfg st envIds posRand rotRand simSteps).rootLinvel =
      st.rootLinvel :=
  iterate_preserve (servoStep cfg) EnvState.rootLinvel (fun _ => rfl)
    simSteps _

theorem randomize_rootAngvel :
    (randomizeGripperPose cfg st envIds posRand rotRand simSteps).rootAngvel =
      st.rootAngvel :=
  iterate_preserve (servoStep cfg) EnvState.rootAngvel (fun _ => rfl)
    simSteps _

theorem randomize_wristPos :
    (randomizeGripperPose cfg st envIds posRand rotRand simSteps).wristPos =
      st.wristPos :=
  iterate_preserve (servoStep cfg) EnvState.wristPos (fun _ => rfl) simSteps _

theorem randomize_wristQuat :
    (randomizeGripperPose cfg st envIds posRand rotRand simSteps).wristQuat =
      st.wristQuat :=
  iterate_preserve (servoStep cfg) EnvState.wristQuat (fun _ => rfl)
    simSteps _

theorem randomize_wristLinvel :
    (randomizeGripperPose cfg st envIds posRand rotRand
      simSteps).wristLinvel = st.wristLinvel :=
  iterate_preserve (servoStep cfg) EnvState.wristLinvel (fun _ => rfl)
    simSteps _

theorem randomize_wristAngvel :
    (randomizeGripperPose cfg st envIds posRand rotRand
      simSteps).wristAngvel = st.wristAngvel :=
  iterate_preserve (servoStep cfg) EnvState.wristAngvel (fun _ => rfl)
    simSteps _

theorem randomize_progressBuf :
    (randomizeGripperPose cfg st envIds posRand rotRand
      simSteps).progressBuf = st.progressBuf :=
  iterate_preserve (servoStep cfg) EnvState.progressBuf (fun _ => rfl)
    simSteps _

theorem randomize_resetBuf :
    (randomizeGripperPose cfg st envIds posRand rotRand simSteps).resetBuf =
      st.resetBuf :=
  iterate_preserve (servoStep cfg) EnvState.resetBuf (fun _ => rfl) simSteps _

end RandomizeFrames

section ResetFrames

variable {N : ℕ} (cfg : TaskCfg N) (st : EnvState N) (envIds : Finset (Fin N))
variable (noise : ResetNoise N)

theorem resetIdx_progressBuf (i : Fin N) :
    (resetIdx cfg st envIds noise).progressBuf i =
      if i ∈ envIds then 0 else st.progressBuf i := by
  unfold resetIdx resetBuffers
  simp only [randomize_progressBuf]
  rfl

theorem resetIdx_resetBuf (i : Fin N) :
    (resetIdx cfg st envIds noise).resetBuf i =
      if i ∈ envIds then 0 else st.resetBuf i := by
  unfold resetIdx resetBuffers
  simp only [randomize_resetBuf]
  rfl

theorem resetIdx_dofPos (j : Fin N) (h : j ∉ envIds) :
    (resetIdx cfg st envIds noise).dofPos j = st.dofPos j := by
  unfold resetIdx
  simp only [resetBuffers, randomize_dofPos, resetObject, resetFranka]
  simp [h]

theorem resetIdx_dofVel (j : Fin N) (h : j ∉ envIds) :
    (resetIdx cfg st envIds noise).dofVel j = st.dofVel j := by
  unfold resetIdx
  simp only [resetBuffers, randomize_dofVel]
  funext k
  simp only [resetObject, resetFranka, h, if_neg]
  simp [h]

theorem resetIdx_ctrlTargetDofPos (j : Fin N) (h : j ∉ envIds) :
    (resetIdx cfg st envIds noise).ctrlTargetDofPos j =
      st.ctrlTargetDofPos j := by
  unfold resetIdx
  simp only [resetBuffers, randomize_ctrlTargetDofPos, resetObject,
    resetFranka]
  simp [h]

theorem resetIdx_rootPos (j : Fin N) (h : j ∉ envIds) (a : Actor) :
    (resetIdx cfg st envIds noise).rootPos j a = st.rootPos j a := by
  unfold resetIdx
  simp only [resetBuffers, randomize_rootPos, resetObject, resetFranka]
  simp [h]

theorem resetIdx_rootQuat (j : Fin N) (h : j ∉ envIds) (a : Actor) :
    (resetIdx cfg st envIds noise).rootQuat j a = st.rootQuat j a := by
  unfold resetIdx
  simp only [resetBuffers, randomize_rootQuat, resetObject, resetFranka]
  simp [h]

theorem resetIdx_rootLinvel (j : Fin N) (h : j ∉ envIds) (a : Actor) :
    (resetIdx cfg st envIds noise).rootLinvel j a = st.rootLinvel j a := by
  unfold resetIdx
  simp only [resetBuffers, randomize_rootLinvel, resetObject, resetFranka]
  simp [h]

theorem resetIdx_rootAngvel (j : Fin N) (h : j ∉ envIds) (a : Actor) :
    (resetIdx cfg st envIds noise).rootAngvel j a = st.rootAngvel j a := by
  unfold resetIdx
  simp only [resetBuffers, randomize_rootAngvel, resetObject, resetFranka]
  simp [h]

theorem resetIdx_wristPos (j : Fin N) :
    (resetIdx cfg st envIds noise).wristPos j = st.wristPos j := by
  unfold resetIdx
  simp only [resetBuffers, randomize_wristPos]
  rfl

theorem resetIdx_wristQuat (j : Fin N) :
    (resetIdx cfg st envIds noise).wristQuat j = st.wristQuat j := by
  unfold resetIdx
  simp only [resetBuffers, randomize_wristQuat]
  rfl

theorem resetIdx_wristLinvel (j : Fin N) :
    (resetIdx cfg st envIds noise).wristLinvel j = st.wristLinvel j := by
  unfold resetIdx
  simp only [resetBuffers, randomize_wristLinvel]
  rfl

theorem resetIdx_wristAngvel (j : Fin N) :
    (resetIdx cfg st envIds noise).wristAngvel j = st.wristAngvel j := by
  unfold resetIdx
  simp only [resetBuffers, randomize_wristAngvel]
  rfl

end ResetFrames

section StepFrames

variable {N : ℕ} (cfg : TaskCfg N) (st : EnvState N)

theorem applyActions_progressBuf (width : ℕ) (a : Fin N → ℕ → ℚ)
    (doScale : Bool) :
    (applyActionsAsCtrlTargets cfg st width a doScale).progressBuf =
      st.progressBuf := rfl

theorem applyActions_resetBuf (width : ℕ) (a : Fin N → ℕ → ℚ)
    (doScale : Bool) :
    (applyActionsAsCtrlTargets cfg st width a doScale).resetBuf =
      st.resetBuf := rfl

theorem liftGripper_progressBuf :
    (liftGripper cfg st).progressBuf = st.progressBuf :=
  iterate_preserve
    (fun s => applyActionsAsCtrlTargets cfg s 6
      (fun _ j => if j = 2 then 3/10 else 0) false)
    EnvState.progressBuf (fun _ => rfl) cfg.numGripperLiftSimSteps st

theorem liftGripper_resetBuf :
    (liftGripper cfg st).resetBuf = st.resetBuf :=
  iterate_preserve
    (fun s => applyActionsAsCtrlTargets cfg s 6
      (fun _ j => if j = 2 then 3/10 else 0) false)
    EnvState.resetBuf (fun _ => rfl) cfg.numGripperLiftSimSteps st

theorem prePhysics_progressBuf (noise : ResetNoise N)
    (a : Fin N → ℕ → ℚ) (i : Fin N) :
    (prePhysicsStep cfg noise a st).progressBuf i =
      if st.resetBuf i ≠ 0 then 0 else st.progressBuf i := by
  unfold prePhysicsStep
  rw [applyActions_progressBuf]
  split
  · rw [resetIdx_progressBuf]
    simp [Finset.mem_filter]
  · rename_i h
    have hz : st.resetBuf i = 0 := by
      by_contra hne
      exact h ⟨i, Finset.mem_filter.mpr ⟨Finset.mem_univ i, hne⟩⟩
    simp [hz]

theorem prePhysics_resetBuf (noise : ResetNoise N)
    (a : Fin N → ℕ → ℚ) (i : Fin N) :
    (prePhysicsStep cfg noise a st).resetBuf i = 0 := by
  unfold prePhysicsStep
  rw [applyActions_resetBuf]
  split
  · rw [resetIdx_resetBuf]
    by_cases hi : st.resetBuf i = 0 <;> simp [Finset.mem_filter, hi]
  · rename_i h
    by_contra hne
    exact h ⟨i, Finset.mem_filter.mpr ⟨Finset.mem_univ i, hne⟩⟩

theorem postPhysics_progressBuf [NeZero N] (a : Fin N → ℕ → ℚ) (i : Fin N) :
    (postPhysicsStep cfg a st).state.progressBuf i = st.progressBuf i + 1 := by
  simp only [postPhysicsStep, updateResetBuf]
  split
  · rw [liftGripper_progressBuf]
  · rfl

theorem postPhysics_resetBuf [NeZero N] (a : Fin N → ℕ → ℚ) (i : Fin N) :
    (postPhysicsStep cfg a st).state.resetBuf i =
      if st.progressBuf i + 1 ≥ cfg.maxEpisodeLength - 1 then 1
      else st.resetBuf i := by
  simp only [postPhysicsStep, updateResetBuf]
  split
  · rw [liftGripper_progressBuf, liftGripper_resetBuf]
  · rfl

end StepFrames

/-! ### Claim theorems -/

/-- C3: one invocation of `_update_reset_buf` sets the reset flag to 1
exactly when that environment's progress counter satisfies
`progress >= max_episode_length - 1`, and otherwise leaves the flag
unchanged; in particular it never clears a flag that is already 1. -/
theorem update_reset_buf_spec :
    ∀ (N : ℕ) (cfg : TaskCfg N) (st : EnvState N) (i : Fin N),
      (updateResetBuf cfg st).resetBuf i =
        (if st.progressBuf i ≥ cfg.maxEpisodeLength - 1 then 1
         else st.resetBuf i) ∧
      (st.resetBuf i = 1 → (updateResetBuf cfg st).resetBuf i = 1) := by
  intro N cfg st i
  refine ⟨rfl, fun h1 => ?_⟩
  simp only [updateResetBuf]
  split <;> simp [h1]

/-- Witness for C3 at a concrete flagged state below the episode end: the
update keeps the raised flag. -/
theorem update_reset_buf_spec_witness :
    (updateResetBuf cfgMax5 stFlagged).resetBuf 0 =
      (if stFlagged.progressBuf 0 ≥ cfgMax5.maxEpisodeLength - 1 then 1
       else stFlagged.resetBuf 0) ∧
    (updateResetBuf cfgMax5 stFlagged).resetBuf 0 = 1 :=
  ⟨(update_reset_buf_spec 1 cfgMax5 stFlagged 0).1,
    (update_reset_buf_spec 1 cfgMax5 stFlagged 0).2 rfl⟩

/-- C9: the reward computation `_update_rew_buf` (including its
keypoint-distance sub-computation) is a deterministic function of the
environment state, the keypoint tensors and the actions: identical inputs
produce identical reward vectors and success metrics. -/
theorem reward_deterministic :
    ∀ (N : ℕ) (inst : NeZero N) (cfg : TaskCfg N) (st st' : EnvState N)
      (kpN kpN' kpG kpG' : Fin N → ℕ → Vec3) (a a' : Fin N → ℕ → ℚ),
      st = st' → kpN = kpN' → kpG = kpG' → a = a' →
      @updateRewBuf N inst cfg st kpN kpG a =
        @updateRewBuf N inst cfg st' kpN' kpG' a' := by
  intro N inst cfg st st' kpN kpN' kpG kpG' a a' h1 h2 h3 h4
  subst h1; subst h2; subst h3; subst h4
  rfl

/-- Witness for C9 at a concrete state and action. -/
theorem reward_deterministic_witness :
    updateRewBuf (zeroCfg 1) (zeroState 1) (fun _ _ _ => 0) (fun _ _ _ => 0)
        (fun _ _ => 0) =
      updateRewBuf (zeroCfg 1) (zeroState 1) (fun _ _ _ => 0)
        (fun _ _ _ => 0) (fun _ _ => 0) :=
  reward_deterministic 1 inferInstance (zeroCfg 1) _ _ _ _ _ _ _ _
    rfl rfl rfl rfl

/-- C6: `_check_lift_success` returns 1 exactly when the nut z-position is
strictly greater than `table_height + nut_height * height_multiple` and 0
otherwise; with `table_height = 0.4`, `nut_height = 0.01` and
`height_multiple = 3.0`, a nut height of 0.43 is not a success (boundary,
not strictly greater) while 0.44 is. -/
theorem lift_success_strict_threshold :
    (∀ (N : ℕ) (cfg : TaskCfg N) (st : EnvState N) (m : ℚ) (i : Fin N),
      (checkLiftSuccess cfg st m i = 1 ↔
        st.rootPos i .nut 2 > cfg.tableHeight + cfg.nutHeights i * m) ∧
      (checkLiftSuccess cfg st m i = 0 ↔
        ¬ st.rootPos i .nut 2 > cfg.tableHeight + cfg.nutHeights i * m)) ∧
    checkLiftSuccess cfgLift stBoundary 3 0 = 0 ∧
    checkLiftSuccess cfgLift stAbove 3 0 = 1 := by
  refine ⟨fun N cfg st m i => ?_,
    by norm_num [checkLiftSuccess, cfgLift, zeroCfg, stBoundary, zeroState],
    by norm_num [checkLiftSuccess, cfgLift, zeroCfg, stAbove, zeroState]⟩
  unfold checkLiftSuccess
  by_cases h : st.rootPos i .nut 2 > cfg.tableHeight + cfg.nutHeights i * m <;>
    simp [h]

/-- C8 counterexample: with a single keypoint the offset template is the
single entry `-0.5` (from `torch.linspace(0, 1, 1) = [0]`), which is not
its own negation, so the template is neither symmetric about zero nor
satisfies `offsets[0] == -offsets[K-1]` at `K = 1`. -/
theorem keypoint_offsets_single :
    getKeypointOffsets 1 0 2 ≠ -getKeypointOffsets 1 (1 - 1) 2 := by
  norm_num [getKeypointOffsets, linspace]

/-- C8 (amended to `K ≥ 2`): the keypoint offset template has zero x/y,
uniform spacing `1/(K-1)` along z, is strictly increasing and symmetric
about zero, spans the unit-length interval `[-1/2, 1/2]`, and satisfies
`offsets[0] = -offsets[K-1]`. -/
theorem keypoint_offsets_spec :
    ∀ K : ℕ, 2 ≤ K →
      (∀ (k : ℕ) (c : Fin 3), c ≠ 2 → getKeypointOffsets K k c = 0) ∧
      (∀ k : ℕ, k + 1 < K →
        getKeypointOffsets K (k+1) 2 - getKeypointOffsets K k 2 =
          1 / ((K : ℚ) - 1)) ∧
      (∀ k l : ℕ, l < K → k < l →
        getKeypointOffsets K k 2 < getKeypointOffsets K l 2) ∧
      (∀ k : ℕ, k < K →
        getKeypointOffsets K k 2 + getKeypointOffsets K (K - 1 - k) 2 = 0) ∧
      getKeypointOffsets K 0 2 = -getKeypointOffsets K (K - 1) 2 ∧
      getKeypointOffsets K 0 2 = -(1/2) ∧
      getKeypointOffsets K (K - 1) 2 = 1/2 := by
  intro K hK
  have hK1 : ¬ K ≤ 1 := by omega
  have h2 : (2 : ℚ) ≤ (K : ℚ) := by exact_mod_cast hK
  have h0 : (0 : ℚ) < (K : ℚ) - 1 := by linarith
  have hne : (K : ℚ) - 1 ≠ 0 := ne_of_gt h0
  have hoff : ∀ k : ℕ, getKeypointOffsets K k 2 = k / ((K : ℚ) - 1) - 1/2 := by
    intro k
    simp [getKeypointOffsets, linspace, hK1]
  have hlast : getKeypointOffsets K (K - 1) 2 = 1/2 := by
    rw [hoff, Nat.cast_sub (by omega : 1 ≤ K)]
    rw [Nat.cast_one, div_self hne]
    norm_num
  have hfirst : getKeypointOffsets K 0 2 = -(1/2) := by
    rw [hoff]
    norm_num
  refine ⟨?_, ?_, ?_, ?_, ?_, hfirst, hlast⟩
  · intro k c hc
    simp [getKeypointOffsets, hc]
  · intro k hk
    rw [hoff, hoff]
    push_cast
    field_simp
    ring
  · intro k l hl hkl
    rw [hoff, hoff]
    have hklq : (k : ℚ) < (l : ℚ) := by exact_mod_cast hkl
    have hmul := mul_lt_mul_of_pos_right hklq (inv_pos.mpr h0)
    simp only [div_eq_mul_inv]
    linarith
  · intro k hk
    rw [hoff, hoff, Nat.cast_sub (by omega : k ≤ K - 1),
      Nat.cast_sub (by omega : 1 ≤ K), Nat.cast_one]
    field_simp
    ring
  · rw [hfirst, hlast]

/-- Witness for C8 at `K = 3`. -/
theorem keypoint_offsets_spec_witness :
    2 ≤ 3 ∧ getKeypointOffsets 3 0 2 = -(1/2) ∧
      getKeypointOffsets 3 (3 - 1) 2 = 1/2 ∧
      getKeypointOffsets 3 0 2 = -getKeypointOffsets 3 (3 - 1) 2 := by
  have h := keypoint_offsets_spec 3 (by norm_num)
  exact ⟨by norm_num, h.2.2.2.2.2.1, h.2.2.2.2.2.2, h.2.2.2.2.1⟩

/-- C5: in `_update_rew_buf` the action-penalty contribution to each
environment's reward is `-‖action‖₂ * action_penalty_scale²` (the scale is
applied once inside `action_penalty` and once more when combining into
`rew_buf`); with `action = [1,0,0,0,0,0]` and `action_penalty_scale = 0.1`
the contribution is `-0.01`. -/
theorem action_penalty_double_scale :
    (∀ (N : ℕ) (inst : NeZero N) (cfg : TaskCfg N) (st : EnvState N)
      (kpN kpG : Fin N → ℕ → Vec3) (a : Fin N → ℕ → ℚ) (i : Fin N),
      (@updateRewBuf N inst cfg st kpN kpG a).1 i =
        -(keypointDist cfg.numKeypoints kpN kpG i) *
            (cfg.keypointRewardScale : ℝ) -
          actionNorm cfg.numActions a i * (cfg.actionPenaltyScale : ℝ) ^ 2 +
          (if st.progressBuf 0 = cfg.maxEpisodeLength - 1 then
            ((checkLiftSuccess cfg st 3 i : ℚ) : ℝ) * (cfg.successBonus : ℝ)
           else 0)) ∧
    -(actionNorm 6 unitAction 0) * (((1/10 : ℚ) : ℝ)) ^ 2 = -(1/100) := by
  constructor
  · intro N inst cfg st kpN kpG a i
    simp only [updateRewBuf]
    split <;> (dsimp only; try ring)
  · have hn : actionNorm 6 unitAction 0 = 1 := by
      unfold actionNorm unitAction
      rw [show ∑ j ∈ Finset.range 6,
          (((if j = 0 then (1:ℚ) else 0) : ℚ) : ℝ) ^ 2 = 1 by
        simp [Finset.sum_range_succ]]
      exact Real.sqrt_one
    rw [hn]
    norm_num

/-- C10: the terminal-step determination reads environment 0's progress
counter alone: `_update_rew_buf` emits the success metric and adds the
success bonus to every environment's reward exactly when
`progress_buf[0] = max_episode_length - 1`, and `post_physics_step` runs
the end-of-episode lift sub-loop exactly when `close_and_lift` is enabled
and environment 0's incremented progress equals `max_episode_length - 1`,
irrespective of all other environments' progress counters. -/
theorem terminal_step_env0 :
    ∀ (N : ℕ) (inst : NeZero N) (cfg : TaskCfg N) (st : EnvState N)
      (kpN kpG : Fin N → ℕ → Vec3) (a : Fin N → ℕ → ℚ) (i : Fin N),
      ((@updateRewBuf N inst cfg st kpN kpG a).2.isSome = true ↔
        st.progressBuf 0 = cfg.maxEpisodeLength - 1) ∧
      ((@updateRewBuf N inst cfg st kpN kpG a).1 i =
        (-(keypointDist cfg.numKeypoints kpN kpG i) *
            (cfg.keypointRewardScale : ℝ) -
          actionNorm cfg.numActions a i * (cfg.actionPenaltyScale : ℝ) *
            (cfg.actionPenaltyScale : ℝ)) +
        (if st.progressBuf 0 = cfg.maxEpisodeLength - 1 then
          ((checkLiftSuccess cfg st 3 i : ℚ) : ℝ) * (cfg.successBonus : ℝ)
         else 0)) ∧
      (@postPhysicsStep N inst cfg a st).didLift =
        (cfg.closeAndLift &&
          decide (st.progressBuf 0 + 1 = cfg.maxEpisodeLength - 1)) := by
  intro N inst cfg st kpN kpG a i
  refine ⟨?_, ?_, ?_⟩
  · simp only [updateRewBuf]
    split
    · rename_i h
      simp [h]
    · rename_i h
      simp [h]
  · simp only [updateRewBuf]
    split <;> (dsimp only; try ring)
  · rfl

theorem stepEp_progressBuf (st : EnvState 4) (i : Fin 4) :
    (stepEp st).progressBuf i =
      (if st.resetBuf i ≠ 0 then 0 else st.progressBuf i) + 1 := by
  unfold stepEp fullStep
  rw [postPhysics_progressBuf, prePhysics_progressBuf]

theorem stepEp_resetBuf (st : EnvState 4) (i : Fin 4) :
    (stepEp st).resetBuf i =
      if (if st.resetBuf i ≠ 0 then 0 else st.progressBuf i) + 1 ≥ 2 then 1
      else 0 := by
  unfold stepEp fullStep
  rw [postPhysics_resetBuf, prePhysics_resetBuf, prePhysics_progressBuf]
  norm_num [cfgEp, zeroCfg]

theorem zeroState_resetBuf (i : Fin 4) : (zeroState 4).resetBuf i = 0 := rfl

theorem zeroState_progressBuf (i : Fin 4) :
    (zeroState 4).progressBuf i = 0 := rfl

theorem stepEp_one_progressBuf (i : Fin 4) :
    (stepEp (zeroState 4)).progressBuf i = 1 := by
  rw [stepEp_progressBuf, zeroState_resetBuf, zeroState_progressBuf]
  norm_num

theorem stepEp_one_resetBuf (i : Fin 4) :
    (stepEp (zeroState 4)).resetBuf i = 0 := by
  rw [stepEp_resetBuf, zeroState_resetBuf, zeroState_progressBuf]
  norm_num

theorem stepEp_two_progressBuf (i : Fin 4) :
    (stepEp (stepEp (zeroState 4))).progressBuf i = 2 := by
  rw [stepEp_progressBuf, stepEp_one_resetBuf, stepEp_one_progressBuf]
  norm_num

theorem stepEp_two_resetBuf (i : Fin 4) :
    (stepEp (stepEp (zeroState 4))).resetBuf i = 1 := by
  rw [stepEp_resetBuf, stepEp_one_resetBuf, stepEp_one_progressBuf]
  norm_num

theorem stepEp_three_progressBuf (i : Fin 4) :
    (stepEp (stepEp (stepEp (zeroState 4)))).progressBuf i = 1 := by
  rw [stepEp_progressBuf, stepEp_two_resetBuf]
  norm_num

theorem stepEp_three_resetBuf (i : Fin 4) :
    (stepEp (stepEp (stepEp (zeroState 4)))).resetBuf i = 0 := by
  rw [stepEp_resetBuf, stepEp_two_resetBuf]
  norm_num

/-- C4 counterexample: in the end-to-end scenario (`N = 4`,
`max_episode_length = 3`, zero actions, fresh buffers), the reset flags
after the 3rd full pipeline step are not `[1,1,1,1]`: the flags raised at
the end of the 2nd step are consumed and cleared by the 3rd step's
`pre_physics_step` reset, leaving `reset_flag = [0,0,0,0]`. -/
theorem episode_scenario_after_third_step :
    ¬ ((stepEp (stepEp (stepEp (zeroState 4)))).resetBuf = fun _ => 1) := by
  intro h
  have h0 := congrFun h 0
  rw [stepEp_three_resetBuf] at h0
  exact absurd h0 (by norm_num)

/-- C4 (amended): in the end-to-end scenario the reset flags are
`[1,1,1,1]` after the 2nd step — i.e. immediately before the 3rd step,
where `progress = [2,2,2,2]` — and the 3rd step's `pre_physics_step`
consumes them, so after the 3rd step `reset_flag = [0,0,0,0]` and
`progress = [1,1,1,1]`. -/
theorem episode_scenario :
    (stepEp (stepEp (zeroState 4))).resetBuf = (fun _ => 1) ∧
    (stepEp (stepEp (zeroState 4))).progressBuf = (fun _ => 2) ∧
    (stepEp (stepEp (stepEp (zeroState 4)))).resetBuf = (fun _ => 0) ∧
    (stepEp (stepEp (stepEp (zeroState 4)))).progressBuf = (fun _ => 1) :=
  ⟨funext stepEp_two_resetBuf, funext stepEp_two_progressBuf,
    funext stepEp_three_resetBuf, funext stepEp_three_progressBuf⟩

/-- C2 counterexample: `_reset_object` writes the nut root z-coordinate as
`table_height - bolt_head_heights` (line 246), so with `table_height = 0.4`
and `bolt_head_height = 0.02` the nut is placed at `0.38`, not at
`table_height + bolt_head_height = 0.42` as the claim states. -/
theorem reset_object_nut_below_table :
    (resetObject cfgNut (zeroState 1) {0} (fun _ _ => 1/2)
        (fun _ _ => 1/2)).rootPos 0 .nut 2 ≠
      cfgNut.tableHeight + cfgNut.boltHeadHeights 0 := by
  have h2 : ¬ ((2 : Fin 3) = 0) := by decide
  have h1 : ¬ ((2 : Fin 3) = 1) := by decide
  norm_num [resetObject, cfgNut, zeroCfg, h2, h1]

/-- C2 (amended: the nut z-offset is `table_height` MINUS the bolt head
height, i.e. the nut is placed below the table surface by the bolt head
height): for every environment in the reset subset, `_reset_object` sets
the nut x/y to the configured nominal positions plus per-axis-scaled
uniform noise in `[-1, 1]`, the z to `table_height - bolt_head_heights`,
the orientation to the canonical quaternion `[0,0,0,1]`, and both
velocities to zero. -/
theorem reset_object_spec :
    ∀ (N : ℕ) (cfg : TaskCfg N) (st : EnvState N) (envIds : Finset (Fin N))
      (nutRand boltRand : Fin N → Fin 2 → ℚ) (i : Fin N), i ∈ envIds →
      0 ≤ nutRand i 0 → nutRand i 0 ≤ 1 → 0 ≤ nutRand i 1 → nutRand i 1 ≤ 1 →
      (∃ u, -1 ≤ u ∧ u ≤ 1 ∧
        (resetObject cfg st envIds nutRand boltRand).rootPos i .nut 0 =
          cfg.nutPosXyInitial 0 + u * cfg.nutPosXyInitialNoise 0) ∧
      (∃ u, -1 ≤ u ∧ u ≤ 1 ∧
        (resetObject cfg st envIds nutRand boltRand).rootPos i .nut 1 =
          cfg.nutPosXyInitial 1 + u * cfg.nutPosXyInitialNoise 1) ∧
      (resetObject cfg st envIds nutRand boltRand).rootPos i .nut 2 =
        cfg.tableHeight - cfg.boltHeadHeights i ∧
      (resetObject cfg st envIds nutRand boltRand).rootQuat i .nut =
        (fun c => if c = 3 then 1 else 0) ∧
      (resetObject cfg st envIds nutRand boltRand).rootLinvel i .nut =
        (fun _ => 0) ∧
      (resetObject cfg st envIds nutRand boltRand).rootAngvel i .nut =
        (fun _ => 0) := by
  intro N cfg st envIds nutRand boltRand i hmem h00 h01 h10 h11
  refine ⟨⟨2 * (nutRand i 0 - 1/2), by linarith, by linarith, ?_⟩,
    ⟨2 * (nutRand i 1 - 1/2), by linarith, by linarith, ?_⟩, ?_, ?_, ?_, ?_⟩ <;>
    simp [resetObject, hmem, mul_assoc]

/-- Witness for C2 at one environment with mid-range noise draws. -/
theorem reset_object_spec_witness :
    (0 : Fin 1) ∈ ({0} : Finset (Fin 1)) ∧
    (resetObject cfgNut (zeroState 1) {0} (fun _ _ => 1/2)
        (fun _ _ => 1/2)).rootPos 0 .nut 2 =
      cfgNut.tableHeight - cfgNut.boltHeadHeights 0 ∧
    (resetObject cfgNut (zeroState 1) {0} (fun _ _ => 1/2)
        (fun _ _ => 1/2)).rootLinvel 0 .nut = (fun _ => 0) := by
  have h := reset_object_spec 1 cfgNut (zeroState 1) {0} (fun _ _ => 1/2)
    (fun _ _ => 1/2) 0 (by decide) (by norm_num) (by norm_num) (by norm_num)
    (by norm_num)
  exact ⟨by decide, h.2.2.1, h.2.2.2.2.1⟩

/-- C1 counterexample: resetting the strict subset `{0}` of two
environments overwrites environment 1's wrist-position control target: the
gripper-pose randomization of `reset_idx` assigns the batch-wide randomized
target `[0, 0, table_height] + ...` to every environment, not only to the
reset subset. -/
theorem reset_idx_not_isolated :
    (1 : Fin 2) ∉ ({0} : Finset (Fin 2)) ∧
    (resetIdx cfgIso (zeroState 2) {0} (halfNoise 2)).ctrlTargetWristPos 1 2 ≠
      (zeroState 2).ctrlTargetWristPos 1 2 := by
  refine ⟨by decide, ?_⟩
  have h2 : ¬ ((2 : Fin 3) = 0) := by decide
  have hval : (resetIdx cfgIso (zeroState 2) {0}
      (halfNoise 2)).ctrlTargetWristPos 1 2 = some ((1/2 : ℚ) : ℝ) := by
    simp only [resetIdx, resetBuffers, randomizeGripperPose, cfgIso, zeroCfg,
      halfNoise]
    norm_num [Function.iterate_zero, h2]
  rw [hval]
  simp only [zeroState]
  intro hEq
  have : ((1/2 : ℚ) : ℝ) = 0 := Option.some_injective _ hEq
  norm_num at this

/-- C1 (amended: isolation holds for the physical and episodic state but
not for the control targets): resetting environment subset `S` leaves the
joint positions and velocities, the DOF control target, the root poses and
velocities of every actor, the wrist views, the progress counter and the
reset flag of every environment outside `S` unchanged (the external physics
sub-stepping of the servo loop being out of scope), while the wrist-pose
and gripper control targets are rewritten for the whole batch. -/
theorem reset_idx_frame :
    ∀ (N : ℕ) (cfg : TaskCfg N) (st : EnvState N) (envIds : Finset (Fin N))
      (noise : ResetNoise N) (j : Fin N), j ∉ envIds →
      (resetIdx cfg st envIds noise).dofPos j = st.dofPos j ∧
      (resetIdx cfg st envIds noise).dofVel j = st.dofVel j ∧
      (resetIdx cfg st envIds noise).ctrlTargetDofPos j =
        st.ctrlTargetDofPos j ∧
      (∀ a, (resetIdx cfg st envIds noise).rootPos j a = st.rootPos j a) ∧
      (∀ a, (resetIdx cfg st envIds noise).rootQuat j a = st.rootQuat j a) ∧
      (∀ a, (resetIdx cfg st envIds noise).rootLinvel j a =
        st.rootLinvel j a) ∧
      (∀ a, (resetIdx cfg st envIds noise).rootAngvel j a =
        st.rootAngvel j a) ∧
      (resetIdx cfg st envIds noise).wristPos j = st.wristPos j ∧
      (resetIdx cfg st envIds noise).wristQuat j = st.wristQuat j ∧
      (resetIdx cfg st envIds noise).wristLinvel j = st.wristLinvel j ∧
      (resetIdx cfg st envIds noise).wristAngvel j = st.wristAngvel j ∧
      (resetIdx cfg st envIds noise).progressBuf j = st.progressBuf j ∧
      (resetIdx cfg st envIds noise).resetBuf j = st.resetBuf j := by
  intro N cfg st envIds noise j h
  refine ⟨resetIdx_dofPos cfg st envIds noise j h,
    resetIdx_dofVel cfg st envIds noise j h,
    resetIdx_ctrlTargetDofPos cfg st envIds noise j h,
    fun a => resetIdx_rootPos cfg st envIds noise j h a,
    fun a => resetIdx_rootQuat cfg st envIds noise j h a,
    fun a => resetIdx_rootLinvel cfg st envIds noise j h a,
    fun a => resetIdx_rootAngvel cfg st envIds noise j h a,
    resetIdx_wristPos cfg st envIds noise j,
    resetIdx_wristQuat cfg st envIds noise j,
    resetIdx_wristLinvel cfg st envIds noise j,
    resetIdx_wristAngvel cfg st envIds noise j, ?_, ?_⟩
  · rw [resetIdx_progressBuf]
    simp [h]
  · rw [resetIdx_resetBuf]
    simp [h]

/-- Witness for C1 with two environments and reset subset `{0}`:
environment 1 keeps its joint state and episode counters. -/
theorem reset_idx_frame_witness :
    (1 : Fin 2) ∉ ({0} : Finset (Fin 2)) ∧
    (resetIdx cfgIso (zeroState 2) {0} (halfNoise 2)).dofPos 1 =
      (zeroState 2).dofPos 1 ∧
    (resetIdx cfgIso (zeroState 2) {0} (halfNoise 2)).progressBuf 1 =
      (zeroState 2).progressBuf 1 ∧
    (resetIdx cfgIso (zeroState 2) {0} (halfNoise 2)).resetBuf 1 =
      (zeroState 2).resetBuf 1 := by
  have h := reset_idx_frame 2 cfgIso (zeroState 2) {0} (halfNoise 2) 1
    (by decide)
  exact ⟨by decide, h.1, h.2.2.2.2.2.2.2.2.2.2.2.1,
    h.2.2.2.2.2.2.2.2.2.2.2.2⟩

theorem fnorm3_zero : fnorm3 (fun _ : Fin 3 => (some (0:ℝ) : F)) = some 0 := by
  simp [fnorm3, Real.sqrt_zero]

theorem fnorm3_none : fnorm3 (fun _ : Fin 3 => (none : F)) = none := by
  simp [fnorm3]

theorem quatFromAngleAxis_zero_none :
    quatFromAngleAxis (some 0) (fun _ : Fin 3 => (none : F)) =
      fun _ => none := by
  unfold quatFromAngleAxis quatUnit
  have htheta : fdiv (some (0:ℝ)) (some 2) = some 0 := by
    norm_num
  funext c
  simp [htheta, fnorm3, fnorm4, Fin.isValue]

theorem fquatMul_none_left (b : QuatF) :
    fquatMul (fun _ => none) b = fun _ => none := by
  funext c
  unfold fquatMul
  split <;> simp

theorem rotTargetQuat_zero_nan {N : ℕ} (cfg : TaskCfg N) (wq : QuatQ)
    (h : cfg.clampRot = false) :
    rotTargetQuat cfg wq (fun _ => some 0) = fun _ => none := by
  unfold rotTargetQuat
  have haxis : (fun _ : Fin 3 => fdiv (some (0:ℝ)) (some (0:ℝ))) =
      fun _ : Fin 3 => (none : F) := by
    funext j
    simp
  simp only [h, Bool.false_eq_true, if_false, fnorm3_zero, haxis,
    quatFromAngleAxis_zero_none, fquatMul_none_left]

theorem rotTargetQuat_zero_clamped {N : ℕ} (cfg : TaskCfg N) (wq : QuatQ)
    (hclamp : cfg.clampRot = true) (hth : 0 ≤ cfg.clampRotThresh) :
    rotTargetQuat cfg wq (fun _ => some 0) =
      fun c => some ((wq c : ℚ) : ℝ) := by
  unfold rotTargetQuat
  have hgt : ¬ fgt (some 0) cfg.clampRotThresh := by
    rw [fgt_some_iff]
    exact not_lt.mpr (by exact_mod_cast hth)
  simp only [hclamp, if_true, fnorm3_zero, hgt, if_false]
  funext c
  fin_cases c <;> simp [fquatMul, identQuatF]

theorem rotTargetQuat_nan_of {N : ℕ} (cfg : TaskCfg N) (wq : QuatQ)
    (rot : Fin 3 → F) (h : cfg.clampRot = false) (hr : ∀ j, rot j = some 0) :
    rotTargetQuat cfg wq rot = fun _ => none := by
  rw [funext hr]
  exact rotTargetQuat_zero_nan cfg wq h

theorem rotTargetQuat_id_of {N : ℕ} (cfg : TaskCfg N) (wq : QuatQ)
    (rot : Fin 3 → F) (hclamp : cfg.clampRot = true)
    (hth : 0 ≤ cfg.clampRotThresh) (hr : ∀ j, rot j = some 0) :
    rotTargetQuat cfg wq rot = fun c => some ((wq c : ℚ) : ℝ) := by
  rw [funext hr]
  exact rotTargetQuat_zero_clamped cfg wq hclamp hth

/-- C7 counterexample: with the rotation clamp disabled, a zero-magnitude
rotation sub-vector drives `axis = rot_actions / angle` through a `0/0`
division; the resulting NaN propagates through `quat_from_angle_axis` and
`quat_mul` into the wrist orientation control target, which therefore is
not the current wrist orientation — the claimed guard does not hold
"regardless of whether the clamp_rot option is enabled". -/
theorem zero_rotation_nan_unclamped :
    (applyActionsAsCtrlTargets cfgNoClamp (zeroState 1) 6 (fun _ _ => 0)
        true).ctrlTargetWristQuat 0 3 = none ∧
    (applyActionsAsCtrlTargets cfgNoClamp (zeroState 1) 6 (fun _ _ => 0)
        true).ctrlTargetWristQuat 0 ≠
      fun c => some (((zeroState 1).wristQuat 0 c : ℚ) : ℝ) := by
  have hq : (applyActionsAsCtrlTargets cfgNoClamp (zeroState 1) 6
      (fun _ _ => 0) true).ctrlTargetWristQuat 0 = fun _ => none := by
    simp only [applyActionsAsCtrlTargets, applyCtrlTargets]
    exact rotTargetQuat_nan_of _ _ _ rfl
      (fun j => by simp [cfgNoClamp, zeroCfg])
  refine ⟨by rw [hq], fun hEq => ?_⟩
  rw [hq] at hEq
  have h3 := congrFun hEq 3
  simp at h3

/-- C7 (amended: the guard holds only through the `clamp_rot` dead-zone):
whenever the rotation clamp is enabled with a nonnegative threshold, an
action whose rotation sub-vector is zero yields the identity delta
quaternion, so the target wrist orientation equals the current wrist
orientation and no NaN reaches the orientation control target; with the
clamp disabled the NaN from the unguarded `0/0` axis normalization
propagates instead. -/
theorem zero_rotation_clamped_identity :
    ∀ (N : ℕ) (cfg : TaskCfg N) (st : EnvState N) (width : ℕ)
      (a : Fin N → ℕ → ℚ) (doScale : Bool) (i : Fin N),
      cfg.clampRot = true → 0 ≤ cfg.clampRotThresh →
      (∀ j : Fin 3, a i (3 + (j : ℕ)) = 0) →
      (applyActionsAsCtrlTargets cfg st width a
          doScale).ctrlTargetWristQuat i =
        fun c => some ((st.wristQuat i c : ℚ) : ℝ) := by
  intro N cfg st width a doScale i hclamp hth hz
  simp only [applyActionsAsCtrlTargets, applyCtrlTargets]
  exact rotTargetQuat_id_of cfg _ _ hclamp hth
    (fun j => by cases doScale <;> simp [hz j])

/-- Witness for C7 with the clamp enabled at threshold `1e-6` and the zero
action: the orientation target is exactly the current wrist orientation. -/
theorem zero_rotation_clamped_identity_witness :
    cfgClamp.clampRot = true ∧ 0 ≤ cfgClamp.clampRotThresh ∧
    (applyActionsAsCtrlTargets cfgClamp (zeroState 1) 6 (fun _ _ => 0)
        true).ctrlTargetWristQuat 0 =
      fun c => some (((zeroState 1).wristQuat 0 c : ℚ) : ℝ) :=
  ⟨rfl, by norm_num [cfgClamp, zeroCfg],
    zero_rotation_clamped_identity 1 cfgClamp (zeroState 1) 6 (fun _ _ => 0)
      true 0 rfl (by norm_num [cfgClamp, zeroCfg]) (fun _ => rfl)⟩

/-- Witness for C5: the reward decomposition instantiated at one
environment with the unit action. -/
theorem action_penalty_double_scale_witness :
    (updateRewBuf (zeroCfg 1) (zeroState 1) (fun _ _ _ => 0)
        (fun _ _ _ => 0) unitAction).1 0 =
      -(keypointDist (zeroCfg 1).numKeypoints (fun _ _ _ => 0)
          (fun _ _ _ => 0) (0 : Fin 1)) *
          ((zeroCfg 1).keypointRewardScale : ℝ) -
        actionNorm (zeroCfg 1).numActions unitAction (0 : Fin 1) *
          ((zeroCfg 1).actionPenaltyScale : ℝ) ^ 2 +
        (if (zeroState 1).progressBuf 0 = (zeroCfg 1).maxEpisodeLength - 1
         then ((checkLiftSuccess (zeroCfg 1) (zeroState 1) 3 0 : ℚ) : ℝ) *
            ((zeroCfg 1).successBonus : ℝ)
         else 0) :=
  action_penalty_double_scale.1 1 inferInstance (zeroCfg 1) (zeroState 1)
    (fun _ _ _ => 0) (fun _ _ _ => 0) unitAction 0

/-- Witness for C10: the terminal-step characterizations instantiated at a
concrete single-environment state. -/
theorem terminal_step_env0_witness :
    ((updateRewBuf (zeroCfg 1) (zeroState 1) (fun _ _ _ => 0)
        (fun _ _ _ => 0) (fun _ _ => 0)).2.isSome = true ↔
      (zeroState 1).progressBuf 0 = (zeroCfg 1).maxEpisodeLength - 1) ∧
    (postPhysicsStep (zeroCfg 1) (fun _ _ => 0) (zeroState 1)).didLift =
      ((zeroCfg 1).closeAndLift &&
        decide ((zeroState 1).progressBuf 0 + 1 =
          (zeroCfg 1).maxEpisodeLength - 1)) :=
  ⟨(terminal_step_env0 1 inferInstance (zeroCfg 1) (zeroState 1)
      (fun _ _ _ => 0) (fun _ _ _ => 0) (fun _ _ => 0) 0).1,
    (terminal_step_env0 1 inferInstance (zeroCfg 1) (zeroState 1)
      (fun _ _ _ => 0) (fun _ _ _ => 0) (fun _ _ => 0) 0).2.2⟩

end Xarm
